import Mathlib

/-!
Shallow embedding of `app.py` (FastAPI backend: character creation, reference-conditioned
image generation, stubbed video generation, media gallery and downloads).

Modelling choices:
* The media directory `MEDIA_DIR` is an association list from filename to file content
  (`FS`); `fsWrite` models `Path.write_text` / `Path.write_bytes` (overwrite semantics),
  `fsLookup` models `Path.exists()` / reading.
* Image bytes are opaque: a saved image is represented by the `b64_json` text the API
  returned (`save_b64_image_to_file` stores it as-is; no claim inspects pixel data).
* Calls to the external OpenAI client are oracles passed in as parameters:
  `Option String` / functions returning it, where `none` models the call raising an
  exception and `some b` a successful response carrying `b64_json = b`.
* `uuid.uuid4().hex` is an external randomness source: each handler receives the hex
  string it would draw.
* Python `str.strip()` is `pyStrip`; `pathlib.Path.suffix` is `pathSuffix`;
  `str.lower()` is `strLower`; `sorted(...)` on strings is `sortStr` (insertion sort
  over the lexicographic order on code points, which is what Python uses).
-/

abbrev FS := List (String × String)

def fsLookup : FS → String → Option String
  | [], _ => none
  | (k, v) :: rest, key => if k = key then some v else fsLookup rest key

def fsWrite (fs : FS) (key val : String) : FS :=
  (key, val) :: fs.filter (fun e => decide (e.1 ≠ key))

def fsKeys (fs : FS) : List String := fs.map Prod.fst

/-- Python `str.strip()` whitespace (`Py_UNICODE_ISSPACE`): the ASCII whitespace
`\t \n \x0b \x0c \r` and space, the separator controls `\x1c`-`\x1f`, NEL `\x85`,
NBSP `\xa0`, Ogham space `\x1680`, the spaces `\x2000`-`\x200a`, the line and
paragraph separators `\x2028`/`\x2029`, narrow NBSP `\x202f`, medium mathematical
space `\x205f`, and ideographic space `\x3000`. -/
def isPyWhitespace (c : Char) : Bool :=
  decide (9 ≤ c.toNat ∧ c.toNat ≤ 13) || decide (c.toNat = 32) ||
  decide (28 ≤ c.toNat ∧ c.toNat ≤ 31) || decide (c.toNat = 0x85) ||
  decide (c.toNat = 0xa0) || decide (c.toNat = 0x1680) ||
  decide (0x2000 ≤ c.toNat ∧ c.toNat ≤ 0x200a) ||
  decide (c.toNat = 0x2028) || decide (c.toNat = 0x2029) ||
  decide (c.toNat = 0x202f) || decide (c.toNat = 0x205f) ||
  decide (c.toNat = 0x3000)

/-- Python `str.strip()`: drop leading and trailing whitespace. -/
def pyStrip (s : String) : String :=
  String.mk (((s.data.dropWhile isPyWhitespace).reverse.dropWhile isPyWhitespace).reverse)

/-- `def id_file(ext): return f"{uuid.uuid4().hex}{ext}"`, with the uuid hex draw
made explicit as a parameter. -/
def id_file (uuidHex : String) (ext : String) : String :=
  uuidHex ++ ext

/-- The fixed style text appended by `ultra_real_prompt`. -/
def STYLE_SUFFIX : String :=
  "\n\nEstilo: fotografia hiper-realista, pele real com poros visíveis, microtextura, sinais de expressão sutis, iluminação natural, lente 85mm, profundidade de campo suave, alta nitidez no rosto, cores naturais."

/-- `ultra_real_prompt(base) = base.strip() + STYLE_SUFFIX`. -/
def ultra_real_prompt (base : String) : String :=
  pyStrip base ++ STYLE_SUFFIX

/-- The fixed context text `create_character` puts before the caller's description. -/
def CREATE_CONTEXT : String :=
  "Crie um retrato ultra realista de um personagem original (não baseado em pessoa real). "

/-- The prompt `create_character` sends to `client.images.generate`. -/
def createPrompt (description : String) : String :=
  ultra_real_prompt (CREATE_CONTEXT ++ description)

/-- The prompt `generate_image_same_face` sends (scene spliced into fixed scaffolding). -/
def scenePrompt (scene : String) : String :=
  ultra_real_prompt
    ("Use a imagem fornecida como referência do mesmo personagem (mesmo rosto). Crie esta nova cena: "
      ++ scene
      ++ ". Mantenha identidade facial consistente (mesmo formato do rosto, olhos, nariz e boca), mas permita mudanças de roupa, pose e ambiente.")

structure HTTPErr where
  status : Nat
  detail : String
deriving DecidableEq

/-- `safe_read_upload`: raise HTTP 400 on empty content, else return the bytes. -/
def safe_read_upload (content : List Nat) : Except HTTPErr (List Nat) :=
  if content = [] then Except.error ⟨400, "Arquivo vazio."⟩ else Except.ok content

/-- `character_ref_path(cid) = MEDIA_DIR / f"{cid}.ref.txt"` (filename inside `MEDIA_DIR`). -/
def character_ref_path (character_id : String) : String :=
  character_id ++ ".ref.txt"

/-- `set_character_ref`: write the reference filename into the character's record file. -/
def set_character_ref (fs : FS) (character_id ref_image_filename : String) : FS :=
  fsWrite fs (character_ref_path character_id) ref_image_filename

/-- `get_character_ref`: `None` if the record file is absent; else
`p.read_text().strip() or None`. -/
def get_character_ref (fs : FS) (character_id : String) : Option String :=
  match fsLookup fs (character_ref_path character_id) with
  | none => none
  | some txt => if pyStrip txt = "" then none else some (pyStrip txt)

/-- Index of the last `'.'` in a character list, if any. -/
def lastDot : List Char → Option Nat
  | [] => none
  | c :: rest =>
    match lastDot rest with
    | some i => some (i + 1)
    | none => if c = '.' then some 0 else none

/-- `pathlib.Path(name).suffix`: text from the final dot, empty unless the dot
is strictly inside the name (`0 < i < len - 1`). -/
def pathSuffix (name : String) : String :=
  match lastDot name.data with
  | none => ""
  | some i => if 0 < i ∧ i + 1 < name.data.length then String.mk (name.data.drop i) else ""

/-- `str.lower()` (ASCII is all that reaches it here). -/
def strLower (s : String) : String := String.mk (s.data.map Char.toLower)

/-- The extension whitelist of the gallery listing in `home`. -/
def MEDIA_EXTS : List String := [".png", ".jpg", ".jpeg", ".mp4"]

/-- Whether `home` lists this filename: `p.suffix.lower() in MEDIA_EXTS`. -/
def galleryName (name : String) : Bool := MEDIA_EXTS.contains (strLower (pathSuffix name))

/-- Code-point comparison of characters (Python compares strings by code points). -/
def charLtB (a b : Char) : Bool := decide (a.toNat < b.toNat)

/-- Lexicographic order on character lists, by code points. -/
def lexLtB : List Char → List Char → Bool
  | [], [] => false
  | [], _ :: _ => true
  | _ :: _, [] => false
  | a :: as, b :: bs => charLtB a b || (!charLtB b a && lexLtB as bs)

/-- Strict lexicographic order on strings (Python `<` on `str`). -/
def strLtB (a b : String) : Bool := lexLtB a.data b.data

/-- Non-strict lexicographic order on strings (Python `<=` on `str`). -/
def strLeB (a b : String) : Bool := ! strLtB b a

/-- Ascending insertion into a list of strings (code-point lexicographic order). -/
def insertStr (x : String) : List String → List String
  | [] => [x]
  | y :: ys => if strLtB y x then y :: insertStr x ys else x :: y :: ys

/-- Python `sorted(...)` on strings: ascending lexicographic sort. -/
def sortStr : List String → List String
  | [] => []
  | x :: xs => insertStr x (sortStr xs)

structure AppState where
  fs : FS
deriving DecidableEq

/-- The unsorted gallery listing: filenames with a whitelisted extension. -/
def galleryNames (fs : FS) : List String := (fsKeys fs).filter galleryName

/-- `home`: `sorted([p.name for p in MEDIA_DIR.glob("*") if p.suffix.lower() in EXTS])`. -/
def homeItems (fs : FS) : List String := sortStr (galleryNames fs)

def home (st : AppState) : List String := homeItems st.fs

/-- Result of a request handler: a JSON-style response, an `HTTPException`,
or an unhandled exception propagating out (`raised`). -/
inductive Outcome (α : Type) where
  | ok (resp : α)
  | http (status : Nat) (detail : String)
  | raised
deriving DecidableEq

/-- `save_b64_image_to_file(b64, path)`: decode and write bytes (content kept opaque). -/
def save_b64_image_to_file (fs : FS) (b64_json : String) (out_path : String) : FS :=
  fsWrite fs out_path b64_json

structure CreateResp where
  character_id : String
  ref_image : String
  download : String
deriving DecidableEq

structure ImageResp where
  character_id : String
  method : String
  image : String
  download : String
deriving DecidableEq

structure VideoResp where
  status : String
  detail : String
deriving DecidableEq

/-- `POST /api/character/create`. `generate` is the `client.images.generate` oracle,
taking the prompt and size; `none` models the SDK call raising. -/
def create_character (st : AppState) (description size : String)
    (character_id uuidHex : String) (generate : String → String → Option String) :
    Outcome CreateResp × AppState :=
  let prompt := createPrompt description
  match generate prompt size with
  | none => (Outcome.raised, st)
  | some b64_json =>
    let filename := id_file uuidHex ".png"
    let fs1 := save_b64_image_to_file st.fs b64_json filename
    let fs2 := set_character_ref fs1 character_id filename
    (Outcome.ok
      { character_id := character_id
        ref_image := "/media/" ++ filename
        download := "/api/download/" ++ filename },
      ⟨fs2⟩)

/-- `POST /api/character/x/image`. `edit` is the `client.images.edit` oracle
(prompt, size, reference bytes); `generate` the fallback `client.images.generate`
oracle; `none` models the call raising. -/
def generate_image_same_face (st : AppState) (character_id scene size uuidHex : String)
    (edit : String → String → String → Option String)
    (generate : String → String → Option String) :
    Outcome ImageResp × AppState :=
  match get_character_ref st.fs character_id with
  | none => (Outcome.http 404 "Personagem não encontrado. Crie o personagem primeiro.", st)
  | some ref_filename =>
    match fsLookup st.fs ref_filename with
    | none => (Outcome.http 500 "Referência do personagem não encontrada no servidor.", st)
    | some refBytes =>
      let prompt := scenePrompt scene
      let finish := fun (b64_json method : String) =>
        let filename := id_file uuidHex ".png"
        let fs1 := save_b64_image_to_file st.fs b64_json filename
        (Outcome.ok
          { character_id := character_id
            method := method
            image := "/media/" ++ filename
            download := "/api/download/" ++ filename },
          (⟨fs1⟩ : AppState))
      match edit prompt size refBytes with
      | some b64_json => finish b64_json "reference-image"
      | none =>
        match generate prompt size with
        | some b64_json => finish b64_json "text-fallback"
        | none => (Outcome.raised, st)

/-- Fixed part of the 501 message of the video route (before `Erro técnico:`). -/
def VIDEO_UNAVAILABLE_MSG : String :=
  "Sua conta/SDK ainda não tem o endpoint de vídeo configurado aqui. O app já está pronto para imagens com rosto consistente. Se você quiser, eu adapto esta rota para o provedor de vídeo que você escolher (ou para o endpoint de vídeo que sua conta tiver). Erro técnico: "

/-- `POST /api/character/x/video`. `video` is the `client.videos.generate` oracle
(prompt, reference bytes); `Except.error name` models the call raising an exception
whose type name is `name`. -/
def generate_video_same_face (st : AppState) (character_id prompt : String)
    (video : String → String → Except String Unit) :
    Outcome VideoResp × AppState :=
  match get_character_ref st.fs character_id with
  | none => (Outcome.http 404 "Personagem não encontrado. Crie o personagem primeiro.", st)
  | some ref_filename =>
    match fsLookup st.fs ref_filename with
    | none => (Outcome.http 500 "Referência do personagem não encontrada no servidor.", st)
    | some refBytes =>
      match video prompt refBytes with
      | Except.ok _ =>
        (Outcome.ok
          { status := "ok"
            detail := "Vídeo iniciado. (Ajuste o download conforme retorno do seu endpoint)." },
          st)
      | Except.error e =>
        (Outcome.http 501 (VIDEO_UNAVAILABLE_MSG ++ e), st)

/-- `GET /api/download/x`: 404 when absent from `MEDIA_DIR`, else stream the file. -/
def download_file (st : AppState) (filename : String) : Outcome String :=
  match fsLookup st.fs filename with
  | none => Outcome.http 404 "Arquivo não encontrado."
  | some content => Outcome.ok content

/-! ### Generation runs (sequences of image-producing requests) -/

/-- One successful-or-failed image-producing request: a character creation
(`POST /api/character/create`) or a same-face scene generation
(`POST /api/character/x/image`), with its uuid draw and external-call oracles. -/
inductive GenEvent where
  | create (description size character_id uuidHex : String)
      (generate : String → String → Option String)
  | scene (character_id sceneTxt size uuidHex : String)
      (edit : String → String → String → Option String)
      (generate : String → String → Option String)

def outcomeOk {α : Type} : Outcome α → Bool
  | Outcome.ok _ => true
  | Outcome.http _ _ => false
  | Outcome.raised => false

def eventStep (st : AppState) : GenEvent → AppState
  | GenEvent.create d sz cid hex g => (create_character st d sz cid hex g).2
  | GenEvent.scene cid sc sz hex e g => (generate_image_same_face st cid sc sz hex e g).2

def eventOk (st : AppState) : GenEvent → Bool
  | GenEvent.create d sz cid hex g => outcomeOk (create_character st d sz cid hex g).1
  | GenEvent.scene cid sc sz hex e g => outcomeOk (generate_image_same_face st cid sc sz hex e g).1

def runEvents : AppState → List GenEvent → AppState
  | st, [] => st
  | st, e :: es => runEvents (eventStep st e) es

def runOk : AppState → List GenEvent → Bool
  | _, [] => true
  | st, e :: es => eventOk st e && runOk (eventStep st e) es

def eventHex : GenEvent → String
  | GenEvent.create _ _ _ hex _ => hex
  | GenEvent.scene _ _ _ hex _ _ => hex

/-! ### Concrete inputs used to instantiate the theorems -/

/-- A generate oracle that always succeeds with fixed bytes. -/
def demoGen : String → String → Option String := fun _ _ => some "IMGDATA"

/-- Two successful character creations, drawing uuid hexes "aaaa" then "bbbb". -/
def demoEvents : List GenEvent :=
  [GenEvent.create "uma heroina" "1024x1024" "cid1" "aaaa" demoGen,
   GenEvent.create "um heroi" "1024x1024" "cid2" "bbbb" demoGen]

/-- A state whose character "c1" has a reference record naming a missing file. -/
def vidState : AppState := ⟨[("c1.ref.txt", "r.png"), ("r.png", "RB")]⟩

/-- A state whose character "c3" has a dangling reference record (file absent). -/
def c3State : AppState := ⟨[("c3.ref.txt", "gone.png")]⟩

/-- A state whose character "c4" has an intact reference image. -/
def c4State : AppState := ⟨[("c4.ref.txt", "r4.png"), ("r4.png", "RB4")]⟩

/-- The state produced by one successful character creation (draw "ffff"). -/
def dlState : AppState :=
  (create_character ⟨[]⟩ "retrato" "1024x1024" "c7" "ffff" (fun _ _ => some "PNGBYTES")).2

/-! ### Order and sorting lemmas -/

theorem notb_eq_false_iff (b : Bool) : (!b) = false ↔ b = true := by cases b <;> simp

theorem notb_eq_true_iff (b : Bool) : (!b) = true ↔ b = false := by cases b <;> simp

theorem lexLtB_asymm : ∀ (a b : List Char), lexLtB a b = true → lexLtB b a = false := by
  intro a
  induction a with
  | nil => intro b h; cases b <;> simp [lexLtB]
  | cons a₀ as ih =>
    intro b h
    cases b with
    | nil => simp [lexLtB] at h
    | cons b₀ bs =>
      simp only [lexLtB, Bool.or_eq_true, Bool.and_eq_true, notb_eq_true_iff] at h
      simp only [lexLtB, Bool.or_eq_false_iff, Bool.and_eq_false_iff, notb_eq_false_iff]
      rcases h with h | ⟨hba, hrec⟩
      · have hba : charLtB b₀ a₀ = false := by
          simp only [charLtB, decide_eq_true_eq, decide_eq_false_iff_not] at h ⊢
          omega
        exact ⟨hba, Or.inl h⟩
      · refine ⟨hba, ?_⟩
        rcases hab : charLtB a₀ b₀ with _ | _
        · exact Or.inr (ih bs hrec)
        · exact Or.inl rfl

theorem lexLeB_trans : ∀ (x y z : List Char),
    lexLtB y x = false → lexLtB z y = false → lexLtB z x = false := by
  intro x
  induction x with
  | nil => intro y z _ _; cases z <;> simp [lexLtB]
  | cons x₀ xs ih =>
    intro y z h1 h2
    cases y with
    | nil => simp [lexLtB] at h1
    | cons y₀ ys =>
      cases z with
      | nil => simp [lexLtB] at h2
      | cons z₀ zs =>
        simp only [lexLtB, Bool.or_eq_false_iff, Bool.and_eq_false_iff, notb_eq_false_iff] at h1 h2 ⊢
        obtain ⟨hyx, h1b⟩ := h1
        obtain ⟨hzy, h2b⟩ := h2
        have hzx : charLtB z₀ x₀ = false := by
          simp only [charLtB, decide_eq_false_iff_not] at hyx hzy ⊢
          omega
        refine ⟨hzx, ?_⟩
        rcases hxz : charLtB x₀ z₀ with _ | _
        · have hxy : charLtB x₀ y₀ = false := by
            simp only [charLtB, decide_eq_false_iff_not] at hyx hzy hxz ⊢
            omega
          have hyz : charLtB y₀ z₀ = false := by
            simp only [charLtB, decide_eq_false_iff_not] at hyx hzy hxz ⊢
            omega
          have r1 : lexLtB ys xs = false := by
            rcases h1b with h | h
            · rw [hxy] at h
              exact absurd h (by simp)
            · exact h
          have r2 : lexLtB zs ys = false := by
            rcases h2b with h | h
            · rw [hyz] at h
              exact absurd h (by simp)
            · exact h
          exact Or.inr (ih ys zs r1 r2)
        · exact Or.inl rfl

theorem strLeB_of_strLtB {a b : String} (h : strLtB a b = true) : strLeB a b = true := by
  simp only [strLeB, strLtB, Bool.not_eq_true'] at *
  exact lexLtB_asymm _ _ h

theorem strLeB_of_not_strLtB {a b : String} (h : strLtB b a = false) : strLeB a b = true := by
  simp [strLeB, h]

theorem strLeB_trans {a b c : String} (h1 : strLeB a b = true) (h2 : strLeB b c = true) :
    strLeB a c = true := by
  simp only [strLeB, strLtB, Bool.not_eq_true'] at *
  exact lexLeB_trans _ _ _ h1 h2

theorem mem_insertStr {z x : String} : ∀ {l : List String},
    z ∈ insertStr x l ↔ z = x ∨ z ∈ l := by
  intro l
  induction l with
  | nil => simp [insertStr]
  | cons y ys ih =>
    simp only [insertStr]
    rcases h : strLtB y x with _ | _
    · simp only [if_false, Bool.false_eq_true, List.mem_cons]
      try tauto
    · simp only [if_true, List.mem_cons, ih]
      try tauto

theorem length_insertStr (x : String) : ∀ (l : List String),
    (insertStr x l).length = l.length + 1 := by
  intro l
  induction l with
  | nil => simp [insertStr]
  | cons y ys ih =>
    simp only [insertStr]
    rcases h : strLtB y x with _ | _ <;> simp [ih]

theorem length_sortStr : ∀ (l : List String), (sortStr l).length = l.length := by
  intro l
  induction l with
  | nil => rfl
  | cons x xs ih => simp [sortStr, length_insertStr, ih]

theorem sorted_insertStr (x : String) : ∀ (l : List String),
    l.Sorted (fun a b => strLeB a b = true) →
    (insertStr x l).Sorted (fun a b => strLeB a b = true) := by
  intro l
  induction l with
  | nil => intro _; simp [insertStr]
  | cons y ys ih =>
    intro hs
    rw [List.sorted_cons] at hs
    simp only [insertStr]
    rcases h : strLtB y x with _ | _
    · simp only [if_false, Bool.false_eq_true, List.sorted_cons]
      have hxy : strLeB x y = true := strLeB_of_not_strLtB h
      refine ⟨?_, ?_⟩
      · intro b hb
        rcases List.mem_cons.mp hb with rfl | hb
        · exact hxy
        · exact strLeB_trans hxy (hs.1 b hb)
      · exact hs
    · simp only [if_true, List.sorted_cons]
      refine ⟨?_, ih hs.2⟩
      intro b hb
      rcases mem_insertStr.mp hb with rfl | hb
      · exact strLeB_of_strLtB h
      · exact hs.1 b hb

theorem sorted_sortStr : ∀ (l : List String),
    (sortStr l).Sorted (fun a b => strLeB a b = true) := by
  intro l
  induction l with
  | nil => simp [sortStr]
  | cons x xs ih => exact sorted_insertStr x (sortStr xs) ih

/-! ### Filesystem lemmas -/

theorem fsLookup_write_self (fs : FS) (k v : String) :
    fsLookup (fsWrite fs k v) k = some v := by
  simp [fsWrite, fsLookup]

theorem fsLookup_filter_ne (fs : FS) (k k' : String) (h : k' ≠ k) :
    fsLookup (fs.filter (fun e => decide (e.1 ≠ k))) k' = fsLookup fs k' := by
  induction fs with
  | nil => rfl
  | cons e rest ih =>
    by_cases he : e.1 = k
    · have : fsLookup (e :: rest) k' = fsLookup rest k' := by
        obtain ⟨k₀, v₀⟩ := e
        simp only [fsLookup]
        rw [if_neg]
        intro hk
        exact h (hk ▸ he)
      rw [this, ← ih]
      simp [List.filter_cons, he]
    · obtain ⟨k₀, v₀⟩ := e
      simp only [List.filter_cons]
      simp only [decide_eq_true_eq]
      rw [if_pos he]
      simp only [fsLookup]
      by_cases hk : k₀ = k'
      · simp [hk]
      · simp only [hk, if_false, ih]

theorem fsLookup_write_ne (fs : FS) (k v k' : String) (h : k' ≠ k) :
    fsLookup (fsWrite fs k v) k' = fsLookup fs k' := by
  simp only [fsWrite, fsLookup]
  rw [if_neg (fun hk => h hk.symm)]
  exact fsLookup_filter_ne fs k k' h

theorem mem_fsKeys_write {x : String} (fs : FS) (k v : String) :
    x ∈ fsKeys (fsWrite fs k v) → x = k ∨ x ∈ fsKeys fs := by
  intro hx
  simp only [fsWrite, fsKeys, List.map_cons, List.mem_cons] at hx
  rcases hx with rfl | hx
  · exact Or.inl rfl
  · right
    simp only [List.mem_map] at hx
    obtain ⟨e, he, rfl⟩ := hx
    exact List.mem_map_of_mem Prod.fst (List.mem_of_mem_filter he)

theorem filter_fresh_eq_self (fs : FS) (k : String) (h : k ∉ fsKeys fs) :
    fs.filter (fun e => decide (e.1 ≠ k)) = fs := by
  induction fs with
  | nil => rfl
  | cons e rest ih =>
    simp only [fsKeys, List.map_cons, List.mem_cons] at h
    push_neg at h
    simp only [List.filter_cons, decide_eq_true_eq]
    rw [if_pos (fun he => h.1 he.symm)]
    rw [ih (by simpa [fsKeys] using h.2)]

theorem galleryNames_write_false (fs : FS) (k v : String) (h : galleryName k = false) :
    galleryNames (fsWrite fs k v) = galleryNames fs := by
  simp only [galleryNames, fsWrite, fsKeys, List.map_cons, List.filter_cons, h]
  simp only [Bool.false_eq_true, if_false]
  induction fs with
  | nil => rfl
  | cons e rest ih =>
    simp only [List.filter_cons, decide_eq_true_eq]
    by_cases he : e.1 = k
    · rw [if_neg (by simpa using he)]
      subst he
      simp only [List.map_cons, List.filter_cons, h, Bool.false_eq_true, if_false]
      exact ih
    · rw [if_pos he]
      simp only [List.map_cons, List.filter_cons]
      by_cases hg : galleryName e.1 = true
      · simp only [hg, if_true]
        rw [ih]
      · simp only [Bool.not_eq_true] at hg
        simp only [hg, Bool.false_eq_true, if_false]
        exact ih

theorem galleryNames_write_fresh (fs : FS) (k v : String) (hg : galleryName k = true)
    (h : k ∉ fsKeys fs) :
    galleryNames (fsWrite fs k v) = k :: galleryNames fs := by
  simp only [galleryNames, fsWrite, fsKeys, List.map_cons, List.filter_cons, hg, if_true]
  rw [filter_fresh_eq_self fs k h]

/-! ### String and path lemmas -/

theorem string_data_inj {s t : String} (h : s.data = t.data) : s = t := by
  cases s
  cases t
  exact congrArg String.mk h

theorem string_append_right_cancel {a b c : String} (h : a ++ c = b ++ c) : a = b := by
  have hd : a.data ++ c.data = b.data ++ c.data := by
    rw [← String.data_append, ← String.data_append, h]
  exact string_data_inj (List.append_cancel_right hd)

theorem data_eq_nil_iff (s : String) : s.data = [] ↔ s = "" := by
  constructor
  · intro h
    exact string_data_inj h
  · intro h
    rw [h]

theorem lastDot_append (cs t : List Char) (j : Nat) (h : lastDot t = some j) :
    lastDot (cs ++ t) = some (cs.length + j) := by
  induction cs with
  | nil => simpa using h
  | cons c rest ih =>
    simp only [List.cons_append, lastDot, List.append_eq, ih, List.length_cons]
    exact congrArg some (by omega)

theorem pathSuffix_png (s : String) (h : s ≠ "") : pathSuffix (s ++ ".png") = ".png" := by
  have hd : (s ++ ".png").data = s.data ++ ['.', 'p', 'n', 'g'] := by
    rw [String.data_append]
  have hdot : lastDot (s.data ++ ['.', 'p', 'n', 'g']) = some (s.data.length + 0) :=
    lastDot_append s.data ['.', 'p', 'n', 'g'] 0 (by decide)
  have hlen : 0 < s.data.length := by
    rcases Nat.eq_zero_or_pos s.data.length with h0 | h0
    · exact absurd ((data_eq_nil_iff s).mp (List.length_eq_zero.mp h0)) h
    · exact h0
  simp only [pathSuffix, hd, hdot]
  have hcond : 0 < s.data.length + 0 ∧
      s.data.length + 0 + 1 < (s.data ++ ['.', 'p', 'n', 'g']).length := by
    simp only [List.length_append, List.length_cons, List.length_nil]
    omega
  rw [if_pos hcond, Nat.add_zero, List.drop_left]

theorem pathSuffix_ref_txt (s : String) : pathSuffix (s ++ ".ref.txt") = ".txt" := by
  have hd : (s ++ ".ref.txt").data = s.data ++ ['.', 'r', 'e', 'f', '.', 't', 'x', 't'] := by
    rw [String.data_append]
  have hdot : lastDot (s.data ++ ['.', 'r', 'e', 'f', '.', 't', 'x', 't']) =
      some (s.data.length + 4) :=
    lastDot_append s.data ['.', 'r', 'e', 'f', '.', 't', 'x', 't'] 4 (by decide)
  simp only [pathSuffix, hd, hdot]
  have hcond : 0 < s.data.length + 4 ∧
      s.data.length + 4 + 1 < (s.data ++ ['.', 'r', 'e', 'f', '.', 't', 'x', 't']).length := by
    simp only [List.length_append, List.length_cons, List.length_nil]
    omega
  rw [if_pos hcond]
  have hre : s.data ++ ['.', 'r', 'e', 'f', '.', 't', 'x', 't'] =
      (s.data ++ ['.', 'r', 'e', 'f']) ++ ['.', 't', 'x', 't'] := by
    simp
  have hlen4 : s.data.length + 4 = (s.data ++ ['.', 'r', 'e', 'f']).length := by
    simp only [List.length_append, List.length_cons, List.length_nil]
  rw [hre, hlen4, List.drop_left]

theorem galleryName_png (s : String) (h : s ≠ "") : galleryName (id_file s ".png") = true := by
  rw [galleryName, id_file, pathSuffix_png s h]
  decide

theorem galleryName_ref_path (cid : String) : galleryName (character_ref_path cid) = false := by
  rw [galleryName, character_ref_path, pathSuffix_ref_txt]
  decide

theorem png_ne_ref_path (s cid : String) : id_file s ".png" ≠ character_ref_path cid := by
  intro h
  have hd := congrArg String.data h
  rw [id_file, character_ref_path, String.data_append, String.data_append] at hd
  have h1 : (s.data ++ (".png" : String).data).getLast? = some 'g' := by
    rw [List.getLast?_append_of_ne_nil _ (by decide)]
    decide
  have h2 : (cid.data ++ (".ref.txt" : String).data).getLast? = some 't' := by
    rw [List.getLast?_append_of_ne_nil _ (by decide)]
    decide
  rw [hd, h2] at h1
  exact absurd (Option.some.inj h1) (by decide)

theorem id_file_png_inj {a b : String} (h : id_file a ".png" = id_file b ".png") : a = b :=
  string_append_right_cancel h

/-! ### Run lemmas -/

theorem galleryNames_step (st : AppState) (e : GenEvent)
    (hok : eventOk st e = true)
    (hne : eventHex e ≠ "")
    (hfresh : id_file (eventHex e) ".png" ∉ fsKeys st.fs) :
    galleryNames (eventStep st e).fs =
      id_file (eventHex e) ".png" :: galleryNames st.fs := by
  cases e with
  | create d sz cid hex g =>
    simp only [eventHex] at hne hfresh
    cases hg : g (createPrompt d) sz with
    | none =>
      simp only [eventOk, create_character, hg, outcomeOk] at hok
      exact absurd hok (by decide)
    | some b =>
      simp only [eventStep, create_character, hg, save_b64_image_to_file, set_character_ref,
        eventHex]
      rw [galleryNames_write_false _ _ _ (galleryName_ref_path cid)]
      rw [galleryNames_write_fresh _ _ _ (galleryName_png hex hne) hfresh]
  | scene cid sc sz hex ed g =>
    simp only [eventHex] at hne hfresh
    cases hr : get_character_ref st.fs cid with
    | none =>
      simp only [eventOk, generate_image_same_face, hr, outcomeOk] at hok
      exact absurd hok (by decide)
    | some ref =>
      cases hl : fsLookup st.fs ref with
      | none =>
        simp only [eventOk, generate_image_same_face, hr, hl, outcomeOk] at hok
        exact absurd hok (by decide)
      | some rb =>
        cases he : ed (scenePrompt sc) sz rb with
        | some b =>
          simp only [eventStep, generate_image_same_face, hr, hl, he,
            save_b64_image_to_file, eventHex]
          rw [galleryNames_write_fresh _ _ _ (galleryName_png hex hne) hfresh]
        | none =>
          cases hg : g (scenePrompt sc) sz with
          | some b =>
            simp only [eventStep, generate_image_same_face, hr, hl, he, hg,
              save_b64_image_to_file, eventHex]
            rw [galleryNames_write_fresh _ _ _ (galleryName_png hex hne) hfresh]
          | none =>
            simp only [eventOk, generate_image_same_face, hr, hl, he, hg, outcomeOk] at hok
            exact absurd hok (by decide)

theorem png_fresh_step (st : AppState) (e : GenEvent) (h' : String)
    (hdiff : h' ≠ eventHex e)
    (hfresh : id_file h' ".png" ∉ fsKeys st.fs) :
    id_file h' ".png" ∉ fsKeys (eventStep st e).fs := by
  intro hx
  cases e with
  | create d sz cid hex g =>
    simp only [eventHex] at hdiff
    cases hg : g (createPrompt d) sz with
    | none =>
      simp only [eventStep, create_character, hg] at hx
      exact hfresh hx
    | some b =>
      simp only [eventStep, create_character, hg, save_b64_image_to_file,
        set_character_ref] at hx
      rcases mem_fsKeys_write _ _ _ hx with hp | hx2
      · exact png_ne_ref_path h' cid hp
      · rcases mem_fsKeys_write _ _ _ hx2 with hp | hx3
        · exact hdiff (id_file_png_inj hp)
        · exact hfresh hx3
  | scene cid sc sz hex ed g =>
    simp only [eventHex] at hdiff
    cases hr : get_character_ref st.fs cid with
    | none =>
      simp only [eventStep, generate_image_same_face, hr] at hx
      exact hfresh hx
    | some ref =>
      cases hl : fsLookup st.fs ref with
      | none =>
        simp only [eventStep, generate_image_same_face, hr, hl] at hx
        exact hfresh hx
      | some rb =>
        cases he : ed (scenePrompt sc) sz rb with
        | some b =>
          simp only [eventStep, generate_image_same_face, hr, hl, he,
            save_b64_image_to_file] at hx
          rcases mem_fsKeys_write _ _ _ hx with hp | hx2
          · exact hdiff (id_file_png_inj hp)
          · exact hfresh hx2
        | none =>
          cases hg : g (scenePrompt sc) sz with
          | some b =>
            simp only [eventStep, generate_image_same_face, hr, hl, he, hg,
              save_b64_image_to_file] at hx
            rcases mem_fsKeys_write _ _ _ hx with hp | hx2
            · exact hdiff (id_file_png_inj hp)
            · exact hfresh hx2
          | none =>
            simp only [eventStep, generate_image_same_face, hr, hl, he, hg] at hx
            exact hfresh hx

theorem galleryNames_run (es : List GenEvent) : ∀ (st : AppState),
    runOk st es = true →
    (∀ e ∈ es, eventHex e ≠ "") →
    (∀ e ∈ es, id_file (eventHex e) ".png" ∉ fsKeys st.fs) →
    (es.map eventHex).Pairwise (fun a b => a ≠ b) →
    (galleryNames (runEvents st es).fs).length = (galleryNames st.fs).length + es.length := by
  induction es with
  | nil =>
    intro st _ _ _ _
    simp [runEvents]
  | cons e es ih =>
    intro st hok hne hfresh hpw
    simp only [runOk, Bool.and_eq_true] at hok
    have hpw' : (e :: es).Pairwise (fun a b => eventHex a ≠ eventHex b) :=
      (List.pairwise_map).mp hpw
    rw [List.pairwise_cons] at hpw'
    have hstep := galleryNames_step st e hok.1 (hne e (List.mem_cons_self e es))
      (hfresh e (List.mem_cons_self e es))
    have hfresh' : ∀ e' ∈ es, id_file (eventHex e') ".png" ∉ fsKeys (eventStep st e).fs := by
      intro e' he'
      refine png_fresh_step st e (eventHex e') ?_
        (hfresh e' (List.mem_cons_of_mem e he'))
      exact fun hcontra => (hpw'.1 e' he') hcontra.symm
    have htail := ih (eventStep st e) hok.2
      (fun e' he' => hne e' (List.mem_cons_of_mem e he'))
      hfresh'
      ((List.pairwise_map).mpr hpw'.2)
    simp only [runEvents] at htail ⊢
    rw [htail, hstep]
    simp only [List.length_cons]
    omega

/-! ### Claim theorems -/

/-- C1 (amended): after any sequence of N successful image generations (character
creations or scene generations, with nonempty pairwise-distinct uuid draws) starting
from an empty media directory, the gallery listing of the home page contains exactly
N artifact entries; but it is sorted ASCENDING lexicographically (`sorted(...)`),
and since artifact names are random uuid hexes with no timestamp, this order is
unrelated to creation time (not newest-first). -/
theorem gallery_run_count_and_ascending (es : List GenEvent)
    (hok : runOk ⟨[]⟩ es = true)
    (hne : ∀ e ∈ es, eventHex e ≠ "")
    (hpw : (es.map eventHex).Pairwise (fun a b => a ≠ b)) :
    (home (runEvents ⟨[]⟩ es)).length = es.length ∧
    (home (runEvents ⟨[]⟩ es)).Sorted (fun a b => strLeB a b = true) := by
  constructor
  · have hcount := galleryNames_run es ⟨[]⟩ hok hne
      (fun e he => by simp [fsKeys]) hpw
    simp only [home, homeItems, length_sortStr]
    simpa [galleryNames, fsKeys] using hcount
  · exact sorted_sortStr _

/-- Witness for C1's amended theorem: a concrete two-creation run has a
two-entry, ascending gallery. -/
theorem gallery_run_count_and_ascending_witness :
    (home (runEvents ⟨[]⟩ demoEvents)).length = demoEvents.length ∧
    (home (runEvents ⟨[]⟩ demoEvents)).Sorted (fun a b => strLeB a b = true) :=
  gallery_run_count_and_ascending demoEvents (by decide) (by decide) (by decide)

/-- Counterexample to C1 as stated: in a concrete run that creates "aaaa.png" first
and "bbbb.png" second, the gallery lists the OLDER artifact first — the listing is
ascending, not descending/newest-first as claimed. -/
theorem gallery_not_descending_counterexample :
    home (runEvents ⟨[]⟩ demoEvents) = ["aaaa.png", "bbbb.png"] ∧
    ["aaaa.png", "bbbb.png"] ≠ ["bbbb.png", "aaaa.png"] := by
  constructor
  · decide
  · decide

/-- C2 (amended): the video endpoint leaves the state unchanged and fails 501 with the
"capability unavailable" message exactly when the character exists, its reference file
is on disk, and the SDK video call raises; but an unknown character yields 404, a
dangling reference yields 500, and if the SDK call succeeded the handler would return
a success response — so it does not fail 501 for every character and prompt. -/
theorem video_endpoint_behavior (st : AppState) (cid prompt : String)
    (video : String → String → Except String Unit) :
    (generate_video_same_face st cid prompt video).2 = st ∧
    (get_character_ref st.fs cid = none →
      (generate_video_same_face st cid prompt video).1 =
        Outcome.http 404 "Personagem não encontrado. Crie o personagem primeiro.") ∧
    (∀ ref, get_character_ref st.fs cid = some ref → fsLookup st.fs ref = none →
      (generate_video_same_face st cid prompt video).1 =
        Outcome.http 500 "Referência do personagem não encontrada no servidor.") ∧
    (∀ ref rb ename, get_character_ref st.fs cid = some ref →
      fsLookup st.fs ref = some rb → video prompt rb = Except.error ename →
      (generate_video_same_face st cid prompt video).1 =
        Outcome.http 501 (VIDEO_UNAVAILABLE_MSG ++ ename)) ∧
    (∀ ref rb, get_character_ref st.fs cid = some ref →
      fsLookup st.fs ref = some rb → video prompt rb = Except.ok () →
      (generate_video_same_face st cid prompt video).1 =
        Outcome.ok ⟨"ok",
          "Vídeo iniciado. (Ajuste o download conforme retorno do seu endpoint)."⟩) := by
  refine ⟨?_, ?_, ?_, ?_, ?_⟩
  · cases hr : get_character_ref st.fs cid with
    | none => simp [generate_video_same_face, hr]
    | some ref =>
      cases hl : fsLookup st.fs ref with
      | none => simp [generate_video_same_face, hr, hl]
      | some rb =>
        cases hv : video prompt rb with
        | ok u => simp [generate_video_same_face, hr, hl, hv]
        | error e => simp [generate_video_same_face, hr, hl, hv]
  · intro hr
    simp [generate_video_same_face, hr]
  · intro ref hr hl
    simp [generate_video_same_face, hr, hl]
  · intro ref rb ename hr hl hv
    simp [generate_video_same_face, hr, hl, hv]
  · intro ref rb hr hl hv
    simp [generate_video_same_face, hr, hl, hv]

/-- Witness for C2's amended theorem: with an intact reference and a raising SDK call,
the concrete outcome is the 501 "capability unavailable" error. -/
theorem video_endpoint_behavior_witness :
    (generate_video_same_face vidState "c1" "um vídeo"
        (fun _ _ => Except.error "AttributeError")).1 =
      Outcome.http 501 (VIDEO_UNAVAILABLE_MSG ++ "AttributeError") :=
  (video_endpoint_behavior vidState "c1" "um vídeo"
      (fun _ _ => Except.error "AttributeError")).2.2.2.1
    "r.png" "RB" "AttributeError" (by decide) (by decide) rfl

/-- Counterexample to C2 as stated: for an unknown character the video endpoint
fails with 404, not with the claimed always-501. -/
theorem video_404_counterexample :
    (generate_video_same_face ⟨[]⟩ "nobody" "um vídeo"
        (fun _ _ => Except.error "AttributeError")).1 =
      Outcome.http 404 "Personagem não encontrado. Crie o personagem primeiro." ∧
    (404 : Nat) ≠ 501 := by
  constructor
  · decide
  · decide

/-- C3: the image endpoint fails 404 exactly when the character has no usable
reference association (`get_character_ref` returns absence), and when the record
names a file missing from the media directory it fails 500 and leaves the state
untouched — the dangling record is not healed and no artifact is written. -/
theorem image_endpoint_errors (st : AppState) (cid sc sz hex : String)
    (edit : String → String → String → Option String)
    (generate : String → String → Option String) :
    ((generate_image_same_face st cid sc sz hex edit generate).1 =
        Outcome.http 404 "Personagem não encontrado. Crie o personagem primeiro." ↔
      get_character_ref st.fs cid = none) ∧
    (∀ ref, get_character_ref st.fs cid = some ref → fsLookup st.fs ref = none →
      (generate_image_same_face st cid sc sz hex edit generate).1 =
        Outcome.http 500 "Referência do personagem não encontrada no servidor." ∧
      (generate_image_same_face st cid sc sz hex edit generate).2 = st) := by
  constructor
  · cases hr : get_character_ref st.fs cid with
    | none => simp [generate_image_same_face, hr]
    | some ref =>
      cases hl : fsLookup st.fs ref with
      | none => simp [generate_image_same_face, hr, hl]
      | some rb =>
        cases he : edit (scenePrompt sc) sz rb with
        | some b => simp [generate_image_same_face, hr, hl, he]
        | none =>
          cases hg : generate (scenePrompt sc) sz with
          | some b => simp [generate_image_same_face, hr, hl, he, hg]
          | none => simp [generate_image_same_face, hr, hl, he, hg]
  · intro ref hr hl
    constructor
    · simp [generate_image_same_face, hr, hl]
    · simp [generate_image_same_face, hr, hl]

/-- Witness for C3: a concrete dangling reference yields the 500 error with the
store and media directory left unchanged. -/
theorem image_endpoint_errors_witness :
    (generate_image_same_face c3State "c3" "uma cena" "1024x1024" "dddd"
        (fun _ _ _ => none) (fun _ _ => none)).1 =
      Outcome.http 500 "Referência do personagem não encontrada no servidor." ∧
    (generate_image_same_face c3State "c3" "uma cena" "1024x1024" "dddd"
        (fun _ _ _ => none) (fun _ _ => none)).2 = c3State :=
  (image_endpoint_errors c3State "c3" "uma cena" "1024x1024" "dddd"
      (fun _ _ _ => none) (fun _ _ => none)).2
    "gone.png" (by decide) (by decide)

/-- C4: given a character whose reference file exists, a successful edit call is
reported with method "reference-image"; if the edit call raises, the handler falls
back to the plain generate call and, when that succeeds, still returns a generated
image tagged method "text-fallback". -/
theorem image_fallback_methods (st : AppState) (cid sc sz hex : String)
    (edit : String → String → String → Option String)
    (generate : String → String → Option String)
    (ref rb : String)
    (hr : get_character_ref st.fs cid = some ref)
    (hl : fsLookup st.fs ref = some rb) :
    (∀ b, edit (scenePrompt sc) sz rb = some b →
      (generate_image_same_face st cid sc sz hex edit generate).1 =
        Outcome.ok ⟨cid, "reference-image", "/media/" ++ id_file hex ".png",
          "/api/download/" ++ id_file hex ".png"⟩) ∧
    (edit (scenePrompt sc) sz rb = none →
      ∀ b, generate (scenePrompt sc) sz = some b →
      (generate_image_same_face st cid sc sz hex edit generate).1 =
        Outcome.ok ⟨cid, "text-fallback", "/media/" ++ id_file hex ".png",
          "/api/download/" ++ id_file hex ".png"⟩) := by
  constructor
  · intro b he
    simp [generate_image_same_face, hr, hl, he]
  · intro he b hg
    simp [generate_image_same_face, hr, hl, he, hg]

/-- Witness for C4: concrete edit failure plus generate success yields a response
tagged "text-fallback"; the same state with a succeeding edit yields
"reference-image" (checked via the theorem's first conjunct elsewhere). -/
theorem image_fallback_methods_witness :
    (generate_image_same_face c4State "c4" "praia" "1024x1024" "eeee"
        (fun _ _ _ => none) (fun _ _ => some "B")).1 =
      Outcome.ok ⟨"c4", "text-fallback", "/media/" ++ id_file "eeee" ".png",
        "/api/download/" ++ id_file "eeee" ".png"⟩ :=
  (image_fallback_methods c4State "c4" "praia" "1024x1024" "eeee"
      (fun _ _ _ => none) (fun _ _ => some "B")
      "r4.png" "RB4" (by decide) (by decide)).2 rfl "B" rfl

theorem character_ref_path_inj {a b : String}
    (h : character_ref_path a = character_ref_path b) : a = b :=
  string_append_right_cancel h

theorem fsLookup_foldl_set_ne (ops : List (String × String)) : ∀ (fs : FS) (cid : String),
    (∀ op ∈ ops, op.1 ≠ cid) →
    fsLookup (ops.foldl (fun acc op => set_character_ref acc op.1 op.2) fs)
        (character_ref_path cid) =
      fsLookup fs (character_ref_path cid) := by
  induction ops with
  | nil =>
    intro fs cid _
    rfl
  | cons op rest ih =>
    intro fs cid h
    simp only [List.foldl_cons]
    rw [ih _ cid (fun o ho => h o (List.mem_cons_of_mem op ho))]
    exact fsLookup_write_ne fs (character_ref_path op.1) op.2 (character_ref_path cid)
      (fun hp => (h op (List.mem_cons_self op rest)) (character_ref_path_inj hp).symm)

/-- C5 (amended): the reference store round-trips `set` then `get` for filenames that
are nonempty and carry no surrounding whitespace (every filename the app stores is a
uuid hex plus ".png", which qualifies); and for a character for which no association
was ever set, `get_character_ref` returns absence. Filenames that are empty or
whitespace-wrapped do NOT round-trip, because `get` strips the stored text and maps
a blank record to absence. -/
theorem store_roundtrip :
    (∀ (fs : FS) (cid fn : String), pyStrip fn = fn → fn ≠ "" →
      get_character_ref (set_character_ref fs cid fn) cid = some fn) ∧
    (∀ (ops : List (String × String)) (cid : String),
      (∀ op ∈ ops, op.1 ≠ cid) →
      get_character_ref
          (ops.foldl (fun acc op => set_character_ref acc op.1 op.2) []) cid = none) := by
  constructor
  · intro fs cid fn hstrip hne
    simp only [get_character_ref, set_character_ref, fsLookup_write_self]
    rw [hstrip, if_neg hne]
  · intro ops cid h
    have hl := fsLookup_foldl_set_ne ops [] cid h
    simp only [get_character_ref, hl]
    rfl

/-- Witness for C5's amended theorem: a concrete set/get round-trip succeeds, and a
character that was never set reads back as absent. -/
theorem store_roundtrip_witness :
    get_character_ref (set_character_ref [] "c5" "r5.png") "c5" = some "r5.png" ∧
    get_character_ref
        (List.foldl (fun acc op => set_character_ref acc op.1 op.2) []
          [("other", "f.png")]) "c5" = none :=
  ⟨store_roundtrip.1 [] "c5" "r5.png" (by decide) (by decide),
   store_roundtrip.2 [("other", "f.png")] "c5" (by decide)⟩

/-- Counterexample to C5 as stated: storing the filename " x " (surrounding
whitespace) reads back as "x", not the same filename that was set. -/
theorem store_roundtrip_counterexample :
    get_character_ref (set_character_ref [] "c5" " x ") "c5" = some "x" ∧
    some " x " ≠ some "x" := by
  constructor
  · decide
  · decide

/-- C6: artifact naming is injective in the uuid draw — two generations whose
uuid4 hex draws differ always produce distinct ".png" filenames. -/
theorem id_file_unique (h1 h2 : String) (hne : h1 ≠ h2) :
    id_file h1 ".png" ≠ id_file h2 ".png" :=
  fun h => hne (id_file_png_inj h)

/-- Witness for C6 at two concrete uuid draws. -/
theorem id_file_unique_witness :
    ("aaaa" : String) ≠ "bbbb" ∧ id_file "aaaa" ".png" ≠ id_file "bbbb" ".png" :=
  ⟨by decide, id_file_unique "aaaa" "bbbb" (by decide)⟩

/-- C7 (amended): the download endpoint returns 404 exactly when the filename is
absent from the media directory, and streams the file whenever it is present —
including reference-store records, which live in the same directory even though the
image generator never wrote them. -/
theorem download_behavior (st : AppState) (fn : String) :
    (download_file st fn = Outcome.http 404 "Arquivo não encontrado." ↔
      fsLookup st.fs fn = none) ∧
    (∀ c, fsLookup st.fs fn = some c → download_file st fn = Outcome.ok c) := by
  constructor
  · cases hl : fsLookup st.fs fn with
    | none => simp [download_file, hl]
    | some c => simp [download_file, hl]
  · intro c hl
    simp [download_file, hl]

/-- Witness for C7's amended theorem: a concretely generated artifact streams back. -/
theorem download_behavior_witness :
    download_file dlState "ffff.png" = Outcome.ok "PNGBYTES" :=
  (download_behavior dlState "ffff.png").2 "PNGBYTES" (by decide)

/-- Counterexample to C7 as stated: after one character creation, the file
"c7.ref.txt" was written by the reference store, never by the image generator
(whose only artifact in this run is "ffff.png"), yet the download endpoint streams
it instead of returning 404. -/
theorem download_ref_record_counterexample :
    download_file dlState "c7.ref.txt" = Outcome.ok "ffff.png" ∧
    "c7.ref.txt" ≠ id_file "ffff" ".png" := by
  constructor
  · decide
  · decide

/-- C8 (amended): `ultra_real_prompt` appends one fixed style text to the stripped
base for every input, but `create_character` also puts a fixed context sentence
before the caller's description — the prompt sent to the API is the stripped
concatenation of that fixed context and the description, plus the style text. -/
theorem prompt_composition (d b : String) :
    ultra_real_prompt b = pyStrip b ++ STYLE_SUFFIX ∧
    createPrompt d = pyStrip (CREATE_CONTEXT ++ d) ++ STYLE_SUFFIX :=
  ⟨rfl, rfl⟩

/-- Counterexample to C8 as stated: for the description "x" the prompt sent by
`create_character` is not just the stripped caller text plus the style text — a
fixed context sentence is prepended as well. -/
theorem prompt_extra_context_counterexample :
    createPrompt "x" ≠ pyStrip "x" ++ STYLE_SUFFIX := by
  decide

/-- C9: reading an uploaded file raises HTTP 400 exactly on empty content and
returns the bytes unchanged on nonempty content. -/
theorem safe_read_upload_spec (content : List Nat) :
    (content = [] → safe_read_upload content = Except.error ⟨400, "Arquivo vazio."⟩) ∧
    (content ≠ [] → safe_read_upload content = Except.ok content) := by
  constructor
  · intro h
    simp [safe_read_upload, h]
  · intro h
    simp [safe_read_upload, h]

/-- Witness for C9 at an empty and a nonempty upload. -/
theorem safe_read_upload_spec_witness :
    safe_read_upload [] = Except.error ⟨400, "Arquivo vazio."⟩ ∧
    safe_read_upload [7, 3] = Except.ok [7, 3] :=
  ⟨(safe_read_upload_spec []).1 rfl, (safe_read_upload_spec [7, 3]).2 (by decide)⟩

theorem id_file_png_ne_empty (hex : String) : id_file hex ".png" ≠ "" := by
  intro h
  have hd : hex.data ++ (".png" : String).data = [] := by
    have := congrArg String.data h
    rwa [id_file, String.data_append] at this
  rcases List.append_eq_nil.mp hd with ⟨h1, h2⟩
  exact absurd h2 (by decide)

/-- C10: `create_character` writes the portrait file before recording the reference:
whenever the handler returns success, the new character's reference association names
the freshly written artifact and that artifact exists in the media directory; and if
the generation call raises before the file is saved, the state — in particular the
reference store — is completely unchanged. -/
theorem create_saves_before_recording (st : AppState) (d sz cid hex : String)
    (g : String → String → Option String)
    (hstrip : pyStrip (id_file hex ".png") = id_file hex ".png") :
    (outcomeOk (create_character st d sz cid hex g).1 = true →
      get_character_ref (create_character st d sz cid hex g).2.fs cid =
        some (id_file hex ".png") ∧
      fsLookup (create_character st d sz cid hex g).2.fs (id_file hex ".png") ≠ none) ∧
    ((create_character st d sz cid hex g).1 = Outcome.raised →
      (create_character st d sz cid hex g).2 = st) := by
  constructor
  · intro hok
    cases hg : g (createPrompt d) sz with
    | none =>
      simp only [create_character, hg, outcomeOk] at hok
      exact absurd hok (by decide)
    | some b =>
      simp only [create_character, hg, save_b64_image_to_file, set_character_ref]
      constructor
      · simp only [get_character_ref, fsLookup_write_self]
        rw [hstrip, if_neg (id_file_png_ne_empty hex)]
      · rw [fsLookup_write_ne _ _ _ _ (png_ne_ref_path hex cid), fsLookup_write_self]
        simp
  · intro hraised
    cases hg : g (createPrompt d) sz with
    | none =>
      simp [create_character, hg]
    | some b =>
      simp only [create_character, hg] at hraised
      exact absurd hraised (by simp)

/-- Witness for C10: a concrete successful creation leaves the reference record
pointing at the artifact just written. -/
theorem create_saves_before_recording_witness :
    get_character_ref
        (create_character ⟨[]⟩ "um retrato" "1024x1024" "c10" "abcd"
          (fun _ _ => some "B")).2.fs "c10" = some (id_file "abcd" ".png") ∧
    fsLookup
        (create_character ⟨[]⟩ "um retrato" "1024x1024" "c10" "abcd"
          (fun _ _ => some "B")).2.fs (id_file "abcd" ".png") ≠ none :=
  (create_saves_before_recording ⟨[]⟩ "um retrato" "1024x1024" "c10" "abcd"
      (fun _ _ => some "B") (by decide)).1 (by decide)
